import Mathlib

/-!
Verification development for the gitpilot plan-generation / plan-execution
pipeline (`src/gitpilot/agentic.py`, `src/gitpilot/agent_tools.py`,
`src/gitpilot/github_api.py`).

The Python sources are shallowly embedded: Python strings are modelled as
`String` (operated on at `Char`-list granularity, matching Python's
code-point semantics), dictionaries keyed by strings as association lists,
fallible calls as `Except String`/`Except PyErr`, and the network and LLM
collaborators of `execute_plan` as an explicit oracle environment
(`ExecEnv`, `ToolsEnv`).  Two facts of the CPython call semantics matter to
the embedding and are modelled explicitly: a call supplying a keyword
argument that the callee's parameter list does not name raises `TypeError`
(`pyBindsCall`), and an `except` clause whose exception class name is not
bound in any enclosing scope raises `NameError` when it is evaluated
(`execute_plan_resolves`).
-/

namespace GitPilot

/-! Python string primitives, at character granularity. -/

/-- The characters Python's `str.strip()` removes (the ASCII whitespace set;
the inputs in this development are ASCII). -/
def pyWs (c : Char) : Bool :=
  c = ' ' || c = '\t' || c = '\n' || c = '\r' || c = '\x0b' || c = '\x0c'

/-- Python `str.strip()` on a character list. -/
def pyStripChars (cs : List Char) : List Char :=
  ((cs.dropWhile pyWs).reverse.dropWhile pyWs).reverse

/-- Python `str.strip()`. -/
def pyStrip (s : String) : String :=
  String.mk (pyStripChars s.toList)

/-- Python `str.split(sep)` for a one-character separator, on character
lists.  `split` always returns at least one (possibly empty) part. -/
def pySplitChars (sep : Char) : List Char → List (List Char)
  | [] => [[]]
  | c :: rest =>
    if c = sep then [] :: pySplitChars sep rest
    else
      match pySplitChars sep rest with
      | [] => [[c]]
      | h :: t => (c :: h) :: t

/-- Python `sep.join(parts)` for a one-character separator, on character
lists. -/
def pyJoinChars (sep : Char) : List (List Char) → List Char
  | [] => []
  | [l] => l
  | l :: ls => l ++ sep :: pyJoinChars sep ls

/-- Python `str.split(sep)` for a one-character separator. -/
def pySplit (sep : Char) (s : String) : List String :=
  (pySplitChars sep s.toList).map String.mk

/-- Whether `needle` occurs as a contiguous subsequence of `hay`. -/
def containsSub (needle : List Char) : List Char → Bool
  | [] => needle.isEmpty
  | c :: rest => needle.isPrefixOf (c :: rest) || containsSub needle rest

/-- Python `needle in hay` on strings (substring containment; an empty
needle is contained in everything). -/
def pyIn (needle hay : String) : Bool :=
  containsSub needle.toList hay.toList

/-- Python `str.lower()` (ASCII case mapping; the inputs in this
development are ASCII). -/
def pyLower (s : String) : String :=
  String.mk (s.toList.map Char.toLower)

/-! Branch-name derivation, translated from `execute_plan`
(`src/gitpilot/agentic.py` lines 337-344):

    sanitized = re.sub(r'[^a-z0-9-]+', '-', plan.goal.lower())
    sanitized = sanitized[:40].strip('-')
    timestamp = str(int(time.time()))[-6:]
    branch_name = f"gitpilot-\x7bsanitized\x7d-\x7btimestamp\x7d"
-/

/-- The character class `[a-z0-9-]` of the sanitizing regex. -/
def allowedBranchChar (c : Char) : Bool :=
  ('a' ≤ c && c ≤ 'z') || ('0' ≤ c && c ≤ '9') || c = '-'

/-- Worker for `reSubDash`: the Boolean records whether the scanner is
inside a run of disallowed characters that has already produced its
single '-'. -/
def reSubDashAux : Bool → List Char → List Char
  | _, [] => []
  | inRun, c :: rest =>
    if allowedBranchChar c then c :: reSubDashAux false rest
    else if inRun then reSubDashAux true rest
    else '-' :: reSubDashAux true rest

/-- Python `re.sub(r'[^a-z0-9-]+', '-', ·)`: each maximal run of characters
outside `[a-z0-9-]` is replaced by a single '-'. -/
def reSubDash (cs : List Char) : List Char :=
  reSubDashAux false cs

/-- Python `str.strip('-')`. -/
def pyStripDash (cs : List Char) : List Char :=
  ((cs.dropWhile (· = '-')).reverse.dropWhile (· = '-')).reverse

/-- Python `str(n)[-6:]` for a natural number `n` (the last six digits of
the decimal representation, or all of it when shorter). -/
def lastSixDigits (n : Nat) : String :=
  let s := toString n
  String.mk (s.toList.drop (s.toList.length - 6))

/-- The branch name `execute_plan` derives from the goal when `branch_name`
is not supplied (`src/gitpilot/agentic.py` lines 338-344), with the call
time `time.time()` passed in as `now`. -/
def deriveBranchName (goal : String) (now : Nat) : String :=
  let sanitized := reSubDash (goal.toList.map Char.toLower)
  let sanitized := pyStripDash (sanitized.take 40)
  "gitpilot-" ++ String.mk sanitized ++ "-" ++ lastSixDigits now

/-- Modelled from the words of claim C7, for comparison with
`deriveBranchName`: "'gitpilot-' + (goal lower-cased, runs of characters
outside [a-z0-9-] collapsed to '-', truncated to 40 characters) + '-' +
the last 6 digits of the current Unix timestamp" — note: no stripping of
leading or trailing '-' from the truncated sanitized goal. -/
def claimedBranchNameC7 (goal : String) (now : Nat) : String :=
  "gitpilot-" ++ String.mk ((reSubDash (goal.toList.map Char.toLower)).take 40)
    ++ "-" ++ lastSixDigits now

/-! Markdown code-fence stripping, translated from `execute_plan`
(`src/gitpilot/agentic.py` lines 437-444 for CREATE and, identically,
lines 500-507 for MODIFY):

    content = content.strip()
    if content.startswith("```"):
        lines = content.split("\n")
        if lines[-1].strip() == "```":
            content = "\n".join(lines[1:-1])
        else:
            content = "\n".join(lines[1:])
-/

/-- The three-backtick fence as a character list. -/
def fenceChars : List Char := "```".toList

/-- The content clean-up `execute_plan` applies to LLM-generated file
content before committing it. -/
def stripFences (content : String) : String :=
  let cs := pyStripChars content.toList
  if cs.take 3 = fenceChars then
    let lines := pySplitChars '\n' cs
    if pyStripChars (lines.getLastD []) = fenceChars then
      String.mk (pyJoinChars '\n' (lines.tail.dropLast))
    else
      String.mk (pyJoinChars '\n' lines.tail)
  else
    String.mk cs

/-! The plan data model (`src/gitpilot/agentic.py` lines 18-38). -/

/-- The `action` literal of `PlanFile`:
`Literal["CREATE", "MODIFY", "DELETE", "READ"]`. -/
inductive FileActionKind
  | CREATE
  | MODIFY
  | DELETE
  | READ
deriving DecidableEq

/-- A file operation in a plan step (`PlanFile`). -/
structure PlanFile where
  path : String
  action : FileActionKind
deriving DecidableEq

/-- A single step in the execution plan (`PlanStep`). -/
structure PlanStep where
  step_number : Int
  title : String
  description : String
  files : List PlanFile
  risks : Option String
deriving DecidableEq

/-- The complete execution plan (`PlanResult`). -/
structure PlanResult where
  goal : String
  summary : String
  steps : List PlanStep
deriving DecidableEq

/-- A plan-JSON file entry as received by pydantic validation: each of the
two fields of `PlanFile` is either present with a string value or absent. -/
structure RawPlanFile where
  path : Option String
  action : Option String
deriving DecidableEq

/-- The string values the `action` literal accepts. -/
def parseActionLiteral : String → Option FileActionKind
  | "CREATE" => some .CREATE
  | "MODIFY" => some .MODIFY
  | "DELETE" => some .DELETE
  | "READ" => some .READ
  | _ => none

/-- Pydantic validation of one file entry against the `PlanFile` schema
(`src/gitpilot/agentic.py` lines 18-21): `path` is required, `action`
defaults to `"MODIFY"` when absent and is otherwise constrained to the
four-value literal. -/
def parsePlanFile (r : RawPlanFile) : Except String PlanFile :=
  match r.path with
  | none => .error "path: Field required"
  | some p =>
    match r.action with
    | none => .ok ⟨p, .MODIFY⟩
    | some a =>
      match parseActionLiteral a with
      | some k => .ok ⟨p, k⟩
      | none => .error "action: Input should be CREATE, MODIFY, DELETE or READ"

/-! The tail of `generate_plan` (`src/gitpilot/agentic.py` lines 297-307):
the CrewAI kickoff result is inspected for a `.pydantic` payload; when it
is present it is returned as the plan, otherwise a warning is logged and
the raw result object itself is returned.  No exception is raised on this
path, and no `PlanGenerationError` type exists anywhere in the codebase. -/

/-- The CrewAI `CrewOutput` as `generate_plan` consumes it: an optional
schema-validated `.pydantic` payload plus the raw model text. -/
structure CrewOutput where
  pydantic : Option PlanResult
  raw : String
deriving DecidableEq

/-- What `generate_plan` can return: a schema-valid plan, or the raw
`CrewOutput` fallback. -/
inductive GenPlanValue
  | plan : PlanResult → GenPlanValue
  | rawOutput : CrewOutput → GenPlanValue
deriving DecidableEq

/-- Whether a `generate_plan` return value is a schema-valid plan. -/
def GenPlanValue.isPlanResult : GenPlanValue → Bool
  | .plan _ => true
  | .rawOutput _ => false

/-- Translation of `generate_plan`'s result handling
(`src/gitpilot/agentic.py` lines 300-307): `if hasattr(result, "pydantic")
and result.pydantic: return result.pydantic` else (after a log warning)
`return result`.  A `CrewOutput` always has the attribute, and a pydantic
model object is always truthy, so the Python truthiness test is exactly
the `Option` match. -/
def generate_plan_finalize (result : CrewOutput) : GenPlanValue :=
  match result.pydantic with
  | some plan => .plan plan
  | none => .rawOutput result

/-! CPython call and name-resolution facts needed by the embedding. -/

/-- Python exceptions surfaced by the embedding. -/
inductive PyErr
  | typeError (msg : String)
  | nameError (msg : String)
  | valueError (msg : String)
deriving DecidableEq

/-- Whether a Python call binds: `nPositional` positional arguments
followed by the keyword arguments `kwargs` against the parameter-name
list `params` (no `*args`/`**kwargs` in the callees modelled here).  A
keyword argument whose name is not a parameter left unbound by the
positional arguments raises `TypeError`. -/
def pyBindsCall (params : List String) (nPositional : Nat) (kwargs : List String) : Bool :=
  decide (nPositional ≤ params.length)
    && kwargs.all (fun k => (params.drop nPositional).contains k)

/-- The parameter list of `set_repo_context`
(`src/gitpilot/agent_tools.py` line 22): `def set_repo_context(owner: str,
repo: str):` — there is no `token` parameter and no `**kwargs`, and the
stored context dict (line 25) holds only `owner` and `repo`. -/
def set_repo_context_params : List String := ["owner", "repo"]

/-- The names bound at module level in `src/gitpilot/agentic.py` (its
imports, lines 1-15, and its top-level definitions).  `HTTPException` is
not among them: `agentic.py` never imports it. -/
def agentic_module_globals : List String :=
  ["annotations", "asyncio", "contextvars", "logging", "dedent", "List",
   "Literal", "Agent", "Crew", "Process", "Task", "BaseModel", "Field",
   "build_llm", "REPOSITORY_TOOLS", "set_repo_context",
   "get_repository_context_summary", "logger", "PlanFile", "PlanStep",
   "PlanResult", "generate_plan", "execute_plan", "get_flow_definition"]

/-- The local names of `execute_plan` (its parameters, the names imported
at lines 329-331, and every name assigned in its body). -/
def execute_plan_locals : List String :=
  ["plan", "repo_full_name", "token", "branch_name", "get_file",
   "put_file", "create_branch", "get_repo", "re", "time", "delete_file",
   "owner", "repo", "execution_steps", "llm", "sanitized", "timestamp",
   "branch_created", "code_writer", "step", "file", "step_summary",
   "create_task", "modify_task", "ctx", "content", "existing_content",
   "modified_content", "result", "e", "_create", "_modify"]

/-- The Python built-in exception names (the relevant subset of the
builtins namespace; `HTTPException` is defined by fastapi/starlette and is
not a builtin). -/
def python_builtin_exceptions : List String :=
  ["BaseException", "Exception", "ValueError", "TypeError", "NameError",
   "KeyError", "IndexError", "AttributeError", "RuntimeError",
   "StopIteration", "OSError", "ImportError", "ArithmeticError",
   "LookupError", "NotImplementedError", "FileNotFoundError",
   "ConnectionError", "TimeoutError"]

/-- Whether a name used inside `execute_plan`'s body resolves, following
Python's local → module-global → builtins lookup. -/
def execute_plan_resolves (n : String) : Bool :=
  execute_plan_locals.contains n || agentic_module_globals.contains n
    || python_builtin_exceptions.contains n

/-- The first half of `generate_plan` (`src/gitpilot/agentic.py` lines
48-58): `owner, repo = repo_full_name.split("/")`, then
`set_repo_context(owner, repo, token=token)`.  Because
`set_repo_context` has no `token` parameter, that call raises
`TypeError` and nothing after it — the exploration crew, the planning
crew — ever runs. -/
def generate_plan_start (repo_full_name : String) (token : Option String) :
    Except PyErr (String × String) :=
  match pySplit '/' repo_full_name with
  | [owner, repo] =>
    if pyBindsCall set_repo_context_params 2 ["token"] then .ok (owner, repo)
    else .error (.typeError "set_repo_context() got an unexpected keyword argument 'token'")
  | _ => .error (.valueError "values to unpack mismatch in owner, repo = repo_full_name.split")

/-! The execution environment: the collaborators `execute_plan` drives,
as oracles.  The feature branch's content is the evolving state
(an association list from path to blob content); the default branch at
branch-creation time is `defaultFiles` and stays frozen.  Injected
failures carry the text that Python's `str(e)` would produce. -/

/-- Oracles for one `execute_plan` run. -/
structure ExecEnv where
  /-- When `some msg`, `create_branch` raises (for example because the ref
  already exists); `msg` is the exception detail. -/
  branchCreateError : Option String
  /-- The repository's default-branch content, from which the feature
  branch is created; `ref`-less reads (HEAD) see this snapshot. -/
  defaultFiles : List (String × String)
  /-- The content-generation crew (`crew.kickoff()` of the Code Writer
  task): task description to raw model output, or an exception. -/
  gen : String → Except String String
  /-- Injected `put_file` failure for a path. -/
  putFileError : String → Option String
  /-- Injected `get_file` failure for a path (beyond plain 404). -/
  getFileError : String → Option String
  /-- Injected `delete_file` failure for a path (beyond plain 404). -/
  deleteFileError : String → Option String

/-- Store or overwrite a blob (GitHub contents PUT creates or updates).
The blob store is an association list read exclusively through
`List.lookup`, so prepending realizes create-or-update: the newest entry
for a path shadows any older one. -/
def listSet (files : List (String × String)) (path content : String) :
    List (String × String) :=
  (path, content) :: files

/-- Remove a blob. -/
def listRemove (files : List (String × String)) (path : String) :
    List (String × String) :=
  files.filter (fun kv => !(kv.1 == path))

/-- `get_file` (`src/gitpilot/github_api.py` lines 359-388): reads the
blob at `path` at the requested `ref` — the feature branch when
`ref=branch_name` is passed (as `execute_plan` does at line 461), the
default branch HEAD when no ref is passed.  A missing path is an
HTTPException whose `str` is "404: Not Found". -/
def gh_get_file (env : ExecEnv) (branchFiles : List (String × String))
    (branchName : String) (ref : Option String) (path : String) :
    Except String String :=
  match env.getFileError path with
  | some e => .error e
  | none =>
    let files := match ref with
      | some r => if r == branchName then branchFiles else env.defaultFiles
      | none => env.defaultFiles
    match files.lookup path with
    | some c => .ok c
    | none => .error "404: Not Found"

/-- `put_file` (`src/gitpilot/github_api.py` lines 391-450): create or
update the blob at `path` on the feature branch. -/
def gh_put_file (env : ExecEnv) (branchFiles : List (String × String))
    (path content : String) : Except String (List (String × String)) :=
  match env.putFileError path with
  | some e => .error e
  | none => .ok (listSet branchFiles path content)

/-- `delete_file` (`src/gitpilot/github_api.py` lines 453-509): fetch the
blob's SHA from the feature branch (404 when absent), then delete it. -/
def gh_delete_file (env : ExecEnv) (branchFiles : List (String × String))
    (path : String) : Except String (List (String × String)) :=
  match env.deleteFileError path with
  | some e => .error e
  | none =>
    match branchFiles.lookup path with
    | some _ => .ok (listRemove branchFiles path)
    | none => .error "404: Not Found"

/-! Content-generation task descriptions, transcribed from the f-strings
`execute_plan` builds (`src/gitpilot/agentic.py` lines 394-415 for CREATE
and 466-479 for MODIFY). -/

/-- The CREATE task description for one target path. -/
def createTaskDescription (goal stepDescription path : String) : String :=
  "Generate complete content for a new file: " ++ path
    ++ "\n\nOverall Goal: " ++ goal
    ++ "\nStep Context: " ++ stepDescription
    ++ "\n\nCRITICAL INSTRUCTIONS:\n- You have access to repository exploration tools - USE THEM!\n- If the goal mentions 'analyze' or 'based on', first read the relevant files:\n  * Use 'Read file content' to read existing files (README.md, source code, etc.)\n  * Use 'List all files in repository' to see what files exist\n- Generate content that is INFORMED by the actual repository content\n- If creating a demo/example, make it relevant to the actual project\n- If creating documentation, reference actual files and code in the repository\n\nRequirements:\n- Create production-ready content appropriate for "
    ++ path
    ++ "\n- If it's a documentation file (.md, .txt, .rst), write comprehensive, well-structured documentation\n- If it's a code file, include proper imports, comments, and follow best practices\n- If it's a configuration file, include sensible defaults and comments\n- Make the content complete and ready to use\n- Do NOT include placeholder comments like 'TODO' or 'IMPLEMENT THIS'\n- The content should be fully functional and informative\n\nReturn ONLY the file content, no explanations or markdown code blocks."

/-- The part of the MODIFY task description that precedes the embedded
current file content. -/
def modifyTaskPre (goal stepDescription path : String) : String :=
  "Modify the existing file: " ++ path
    ++ "\n\nOverall Goal: " ++ goal
    ++ "\nStep Context: " ++ stepDescription
    ++ "\n\nCurrent File Content:\n---\n"

/-- The part of the MODIFY task description that follows the embedded
current file content. -/
def modifyTaskPost : String :=
  "\n---\n\nRequirements:\n- Make the changes described in the step context\n- Preserve the existing structure and format\n- For documentation: update or add relevant sections\n- For code: add/modify functions, imports, or logic as needed\n- Ensure the result is complete and functional\n- Do NOT just add comments - make real, substantive changes\n\nReturn ONLY the complete modified file content, no explanations."

/-- The MODIFY task description: the fetched current content of the file
is embedded between `modifyTaskPre` and `modifyTaskPost`. -/
def modifyTaskDescription (goal stepDescription path existing : String) : String :=
  modifyTaskPre goal stepDescription path ++ existing ++ modifyTaskPost

/-- The state threaded through one step's file loop: the feature-branch
content, the trace of task descriptions handed to the content-generation
crew (in call order), and the accumulating `step_summary` string. -/
structure StepState where
  files : List (String × String)
  trace : List String
  summary : String
deriving DecidableEq

/-- The body of `execute_plan`'s inner `for file in step.files` loop
(`src/gitpilot/agentic.py` lines 389-562).  CREATE has no inner
try/except, so its failures are caught by the outer per-file handler
(lines 555-562, "✗ Error processing"); MODIFY and DELETE have their own
handlers (lines 519-526 and 542-549, "✗ Failed to modify"/"✗ Failed to
delete"); READ only narrates.  In every failure case the loop continues
with the next file. -/
def processFile (env : ExecEnv) (goal stepDescription branchName : String)
    (st : StepState) (file : PlanFile) : StepState :=
  match file.action with
  | .CREATE =>
    let desc := createTaskDescription goal stepDescription file.path
    match env.gen desc with
    | .error e =>
      { st with trace := st.trace ++ [desc],
                summary := st.summary ++ "\n  ✗ Error processing " ++ file.path ++ ": " ++ e }
    | .ok raw =>
      let content := stripFences raw
      match gh_put_file env st.files file.path content with
      | .error e =>
        { st with trace := st.trace ++ [desc],
                  summary := st.summary ++ "\n  ✗ Error processing " ++ file.path ++ ": " ++ e }
      | .ok files' =>
        { files := files', trace := st.trace ++ [desc],
          summary := st.summary ++ "\n  ✓ Created " ++ file.path }
  | .MODIFY =>
    match gh_get_file env st.files branchName (some branchName) file.path with
    | .error e =>
      { st with summary := st.summary ++ "\n  ✗ Failed to modify " ++ file.path ++ ": " ++ e }
    | .ok existing =>
      let desc := modifyTaskDescription goal stepDescription file.path existing
      match env.gen desc with
      | .error e =>
        { st with trace := st.trace ++ [desc],
                  summary := st.summary ++ "\n  ✗ Failed to modify " ++ file.path ++ ": " ++ e }
      | .ok raw =>
        let content := stripFences raw
        match gh_put_file env st.files file.path content with
        | .error e =>
          { st with trace := st.trace ++ [desc],
                    summary := st.summary ++ "\n  ✗ Failed to modify " ++ file.path ++ ": " ++ e }
        | .ok files' =>
          { files := files', trace := st.trace ++ [desc],
            summary := st.summary ++ "\n  ✓ Modified " ++ file.path }
  | .DELETE =>
    match gh_delete_file env st.files file.path with
    | .error e =>
      { st with summary := st.summary ++ "\n  ✗ Failed to delete " ++ file.path ++ ": " ++ e }
    | .ok files' =>
      { st with files := files',
                summary := st.summary ++ "\n  ✓ Deleted " ++ file.path }
  | .READ =>
    { st with summary := st.summary ++ "\n  ℹ️ READ-only: inspected " ++ file.path }

/-- The state threaded through the step loop: branch content, generation
trace, and the accumulated `execution_steps` entries
`(step_number, summary)`. -/
structure ExecState where
  files : List (String × String)
  trace : List String
  logs : List (Int × String)
deriving DecidableEq

/-- One iteration of `for step in plan.steps` (`src/gitpilot/agentic.py`
lines 386-564): the step summary starts as
`f"Step <step_number>: <title>"`, each file appends its outcome line, and
the finished summary is appended to `execution_steps`. -/
def processStep (env : ExecEnv) (goal branchName : String)
    (st : ExecState) (step : PlanStep) : ExecState :=
  let s0 : StepState :=
    ⟨st.files, st.trace, "Step " ++ toString step.step_number ++ ": " ++ step.title⟩
  let s1 := step.files.foldl (processFile env goal step.description branchName) s0
  ⟨s1.files, s1.trace, st.logs ++ [(step.step_number, s1.summary)]⟩

/-- The whole per-step loop of `execute_plan` over a plan, starting from
the freshly created feature branch (whose content is the default
branch's). -/
def execute_plan_steps (env : ExecEnv) (plan : PlanResult) (branchName : String) :
    ExecState :=
  plan.steps.foldl (processStep env plan.goal branchName)
    ⟨env.defaultFiles, [], []⟩

/-- The dictionary `execute_plan` returns (`src/gitpilot/agentic.py`
lines 566-572), field for key: note the per-step entries sit under
`executionLog` (itself a one-key dict `steps`), not under a top-level
`steps` key. -/
structure ExecuteResult where
  status : String
  message : String
  branch : String
  branch_url : String
  executionLog : List (Int × String)
deriving DecidableEq

/-- The top-level keys of the dict literal at lines 566-572. -/
def execute_plan_result_keys : List String :=
  ["status", "message", "branch", "branch_url", "executionLog"]

/-- The keys of the nested dict stored under `executionLog`. -/
def executionLog_inner_keys : List String := ["steps"]

/-- The top-level keys the spec's ExecutionLog shape names
(spec section 3, quoted by claim C8). -/
def claimedExecutionLogKeysC8 : List String :=
  ["status", "message", "branch", "branch_url", "steps"]

/-- Build the returned dict from the finished `execution_steps`. -/
def mkExecuteResult (plan : PlanResult) (repo_full_name branchName : String)
    (logs : List (Int × String)) : ExecuteResult :=
  { status := "completed",
    message := "Successfully executed " ++ toString plan.steps.length
      ++ " steps on " ++ repo_full_name ++ " in branch '" ++ branchName ++ "'",
    branch := branchName,
    branch_url := "https://github.com/" ++ repo_full_name ++ "/tree/" ++ branchName,
    executionLog := logs }

/-- `execute_plan` from line 362 on: the Code-Writer context binding
`set_repo_context(owner, repo, token=token)` (line 363) precedes the step
loop.  `set_repo_context` has no `token` parameter, so in CPython this
call raises `TypeError` and the loop below it is unreachable; the
translation keeps both the raising call and the loop it guards. -/
def execute_plan_after_branch (env : ExecEnv) (plan : PlanResult)
    (repo_full_name branchName : String) : Except PyErr ExecuteResult :=
  if pyBindsCall set_repo_context_params 2 ["token"] then
    .ok (mkExecuteResult plan repo_full_name branchName
          (execute_plan_steps env plan branchName).logs)
  else
    .error (.typeError "set_repo_context() got an unexpected keyword argument 'token'")

/-- `execute_plan` (`src/gitpilot/agentic.py` lines 310-572), with
`time.time()` passed in as `now`.  Branch setup: the derived or supplied
branch name, then `create_branch`; when `create_branch` raises, the
handler `except HTTPException as e:` (line 352) evaluates the name
`HTTPException`, which is bound neither among `execute_plan`'s locals nor
in `agentic.py`'s module globals nor in the builtins, so CPython raises
`NameError` instead of logging the intended warning. -/
def execute_plan (env : ExecEnv) (plan : PlanResult) (repo_full_name : String)
    (branch_name : Option String) (now : Nat) : Except PyErr ExecuteResult :=
  match pySplit '/' repo_full_name with
  | [_owner, _repo] =>
    let branchName := match branch_name with
      | some b => b
      | none => deriveBranchName plan.goal now
    match env.branchCreateError with
    | some _ =>
      if execute_plan_resolves "HTTPException" then
        execute_plan_after_branch env plan repo_full_name branchName
      else
        .error (.nameError "name 'HTTPException' is not defined")
    | none => execute_plan_after_branch env plan repo_full_name branchName
  | _ => .error (.valueError "values to unpack mismatch in owner, repo = repo_full_name.split")

/-! The exploration tool set (`src/gitpilot/agent_tools.py`).  Every tool
body is a single `try:` block whose `except Exception` clause formats the
exception into an error string, so each tool is a total `String`-valued
function; the fallible body is modelled as an `Except String` computation
that the tool catches. -/

/-- The global `_current_repo_context` dict: `set_repo_context` stores
only `owner` and `repo` (line 25); the unset state is the empty dict,
whose `.get(..., "")` reads are empty strings. -/
structure ToolCtx where
  owner : String
  repo : String
deriving DecidableEq

/-- The unset repository context (`_current_repo_context = {}`,
modulo `.get` defaults). -/
def unsetCtx : ToolCtx := ⟨"", ""⟩

/-- `get_repo_context` (`src/gitpilot/agent_tools.py` lines 28-34):
raises `ValueError` when owner or repo is empty/absent. -/
def get_repo_context (ctx : ToolCtx) : Except String (String × String) :=
  if ctx.owner == "" || ctx.repo == "" then
    .error "Repository context not set. Call set_repo_context first."
  else
    .ok (ctx.owner, ctx.repo)

/-- Oracles for the tool set: the recursive tree fetch (already filtered
to blob paths, as `get_repo_tree` returns it) and single-file reads. -/
structure ToolsEnv where
  tree : Except String (List String)
  fileContent : String → Except String String

/-- Python `sorted` on strings (stable, code-point lexicographic). -/
def pySorted (l : List String) : List String :=
  l.mergeSort (fun a b => !(decide (b < a)))

/-- Python `path.rsplit("/", 1)` for a path known to contain "/": the
directory part and the basename. -/
def rsplit1Slash (p : String) : String × String :=
  let parts := pySplit '/' p
  (String.mk (pyJoinChars '/' (parts.dropLast.map String.toList)), (parts.getLastD ""))

/-- Python `"/" in path`. -/
def hasSlash (p : String) : Bool := pyIn "/" p

/-- The `list_repository_files` tool (lines 116-153). -/
def list_repository_files (env : ToolsEnv) (ctx : ToolCtx) : String :=
  match (do
      let (owner, repo) ← get_repo_context ctx
      let tree ← env.tree
      pure (owner, repo, tree) : Except String (String × String × List String)) with
  | .error e => "Error listing repository files: " ++ e
  | .ok (owner, repo, tree) =>
    if tree.isEmpty then "Repository is empty - no files found."
    else
      "Repository: " ++ owner ++ "/" ++ repo ++ "\n"
        ++ "Total files: " ++ toString tree.length ++ "\n\n"
        ++ "Files:\n"
        ++ String.join ((pySorted tree).map (fun p => "  - " ++ p ++ "\n"))

/-- The `get_directory_structure` tool (lines 156-215): root files first,
then each directory (keyed by the full `rsplit("/", 1)` prefix) with its
direct entries, all sorted. -/
def get_directory_structure (env : ToolsEnv) (ctx : ToolCtx) : String :=
  match (do
      let (owner, repo) ← get_repo_context ctx
      let tree ← env.tree
      pure (owner, repo, tree) : Except String (String × String × List String)) with
  | .error e => "Error getting directory structure: " ++ e
  | .ok (owner, repo, tree) =>
    if tree.isEmpty then "Repository is empty - no files found."
    else
      let rootFiles := tree.filter (fun p => !(hasSlash p))
      let dirKeys := ((tree.filter hasSlash).map (fun p => (rsplit1Slash p).1)).eraseDups
      "Repository: " ++ owner ++ "/" ++ repo ++ "\n\n"
        ++ "Directory Structure:\n.\n"
        ++ String.join ((pySorted rootFiles).map (fun f => "├── " ++ f ++ "\n"))
        ++ String.join ((pySorted dirKeys).map (fun d =>
            "├── " ++ d ++ "/\n"
              ++ String.join ((pySorted (((tree.filter
                    (fun p => hasSlash p && (rsplit1Slash p).1 == d)).map
                      (fun p => (rsplit1Slash p).2)))).map
                  (fun f => "│   ├── " ++ f ++ "\n"))))

/-- The `read_file` tool (lines 218-246): fetches one blob's decoded
content; any failure — unset context, missing path, transport error — is
caught and returned as an error string. -/
def read_file (env : ToolsEnv) (ctx : ToolCtx) (file_path : String) : String :=
  match (do
      let _ ← get_repo_context ctx
      env.fileContent file_path : Except String String) with
  | .error e => "Error reading file " ++ file_path ++ ": " ++ e
  | .ok content => "Content of " ++ file_path ++ ":\n---\n" ++ content ++ "\n---"

/-- The `search_files` tool (lines 249-292): case-insensitive substring
filter over paths. -/
def search_files (env : ToolsEnv) (ctx : ToolCtx) (pattern : String) : String :=
  match (do
      let _ ← get_repo_context ctx
      env.tree : Except String (List String)) with
  | .error e => "Error searching for files: " ++ e
  | .ok tree =>
    let matching := tree.filter (fun p => pyIn (pyLower pattern) (pyLower p))
    if matching.isEmpty then "No files found matching pattern: " ++ pattern
    else
      "Files matching '" ++ pattern ++ "' (" ++ toString matching.length
        ++ " found):\n"
        ++ String.join ((pySorted matching).map (fun p => "  - " ++ p ++ "\n"))

/-- Python `str.rstrip("/")`. -/
def pyRstripSlash (s : String) : String :=
  String.mk ((s.toList.reverse.dropWhile (fun c => c == '/')).reverse)

/-- The `list_directory_files` tool (lines 295-344): direct children of
one directory. -/
def list_directory_files (env : ToolsEnv) (ctx : ToolCtx) (directory : String) : String :=
  match (do
      let _ ← get_repo_context ctx
      env.tree : Except String (List String)) with
  | .error e => "Error listing directory: " ++ e
  | .ok tree =>
    let dirPath0 := pyRstripSlash directory
    let dirPath := if dirPath0 == "" then dirPath0 else dirPath0 ++ "/"
    let filesInDir := tree.filter (fun p =>
      dirPath.toList.isPrefixOf p.toList
        && !(hasSlash (String.mk (p.toList.drop dirPath.toList.length))))
    if filesInDir.isEmpty then
      "Directory '" ++ directory ++ "' not found or is empty."
    else
      "Files in directory '" ++ directory ++ "' (" ++ toString filesInDir.length
        ++ " files):\n"
        ++ String.join ((pySorted filesInDir).map (fun p =>
            "  - " ++ String.mk (p.toList.drop dirPath.toList.length) ++ "\n"))

/-- The key-file substrings of `get_repository_summary` (line 398). -/
def keySubstrings : List String :=
  ["readme", "license", "makefile", "dockerfile", "requirements",
   "package.json", ".gitignore"]

/-- Python `"." + path.rsplit(".", 1)[1]` guarded by `"." in path`
(lines 387-389 — note the guard looks at the whole path, so a dot in a
directory name counts). -/
def extOf (p : String) : Option String :=
  if pyIn "." p then some ("." ++ (pySplit '.' p).getLastD "") else none

/-- The top-level directory of a path containing "/" (lines 392-394). -/
def topDirOf (p : String) : Option String :=
  if hasSlash p then some ((pySplit '/' ((rsplit1Slash p).1)).headD "") else none

/-- The `get_repository_summary` tool (lines 347-422): aggregate counts,
top directories, extension histogram sorted by descending count
(stable, so insertion order breaks ties, as Python's `sorted` with
`reverse=True` does), and key files. -/
def get_repository_summary (env : ToolsEnv) (ctx : ToolCtx) : String :=
  match (do
      let (owner, repo) ← get_repo_context ctx
      let tree ← env.tree
      pure (owner, repo, tree) : Except String (String × String × List String)) with
  | .error e => "Error generating repository summary: " ++ e
  | .ok (owner, repo, tree) =>
    if tree.isEmpty then "Repository is empty - no files found."
    else
      let exts := tree.filterMap extOf
      let extKeys := exts.eraseDups
      let dirs := (tree.filterMap topDirOf).eraseDups
      let keyFiles := tree.filter (fun p =>
        keySubstrings.any (fun k => pyIn k (pyLower p)))
      "Repository Summary: " ++ owner ++ "/" ++ repo ++ "\n"
        ++ String.mk (List.replicate 50 '=') ++ "\n\n"
        ++ "Total Files: " ++ toString tree.length ++ "\n"
        ++ "Total Directories: " ++ toString dirs.length ++ "\n\n"
        ++ "Top Directories:\n"
        ++ String.join (((pySorted dirs).take 10).map (fun d => "  - " ++ d ++ "/\n"))
        ++ "\nFile Types:\n"
        ++ String.join (((extKeys.mergeSort
              (fun a b => decide (exts.count b ≤ exts.count a))).take 10).map
            (fun ex => "  " ++ ex ++ ": " ++ toString (exts.count ex) ++ " files\n"))
        ++ (if keyFiles.isEmpty then ""
            else "\nKey Files:\n"
              ++ String.join ((pySorted keyFiles).map (fun f => "  - " ++ f ++ "\n")))

/-! Concrete instances used by witnesses and counterexamples. -/

/-- A plan with no steps. -/
def emptyPlan : PlanResult := ⟨"add docs", "no-op plan", []⟩

/-- An environment in which `create_branch` raises because the ref
already exists. -/
def branchExistsEnv : ExecEnv :=
  ⟨some "422: Reference already exists", [], fun _ => .ok "content",
   fun _ => none, fun _ => none, fun _ => none⟩

/-- An environment in which branch creation succeeds and every
collaborator call succeeds. -/
def demoEnvOk : ExecEnv :=
  ⟨none, [("README.md", "# old readme")], fun _ => .ok "generated content",
   fun _ => none, fun _ => none, fun _ => none⟩

/-- An environment whose `put_file` raises a write conflict for `a.py`
and succeeds elsewhere. -/
def conflictEnv : ExecEnv :=
  ⟨none, [], fun _ => .ok "generated content",
   fun p => if p == "a.py" then some "409: sha conflict" else none,
   fun _ => none, fun _ => none⟩

/-- A tools environment whose tree fetch fails and whose file reads
all 404. -/
def failingToolsEnv : ToolsEnv :=
  ⟨.error "boom: repository unreachable", fun _ => .error "404: Not Found"⟩

/-- A bound tool context. -/
def okCtx : ToolCtx := ⟨"octocat", "hello"⟩

/-! Helper lemmas. -/

/-- Dropping by a predicate that fails on the head keeps the list. -/
lemma dropWhile_eq_self_of_head (p : Char → Bool) (cs : List Char)
    (h : ∀ c, cs.head? = some c → p c = false) : cs.dropWhile p = cs := by
  cases cs with
  | nil => rfl
  | cons c rest => simp [List.dropWhile, h c rfl]

/-- `pyStripChars` is the identity when both ends are non-whitespace. -/
lemma pyStripChars_eq_self (cs : List Char)
    (h1 : ∀ c, cs.head? = some c → pyWs c = false)
    (h2 : ∀ c, cs.getLast? = some c → pyWs c = false) :
    pyStripChars cs = cs := by
  unfold pyStripChars
  rw [dropWhile_eq_self_of_head pyWs cs h1]
  rw [dropWhile_eq_self_of_head pyWs cs.reverse
    (fun c hc => h2 c (by rwa [List.head?_reverse] at hc))]
  exact List.reverse_reverse cs

/-- Splitting a list without the separator gives a single part. -/
lemma pySplitChars_no_sep (sep : Char) (l : List Char)
    (h : ∀ c ∈ l, c ≠ sep) : pySplitChars sep l = [l] := by
  induction l with
  | nil => rfl
  | cons c rest ih =>
    have hc : c ≠ sep := h c (by simp)
    simp only [pySplitChars, if_neg hc]
    rw [ih (fun x hx => h x (by simp [hx]))]

/-- Splitting past a first separator-free part peels it off. -/
lemma pySplitChars_append_sep (sep : Char) (l cs : List Char)
    (h : ∀ c ∈ l, c ≠ sep) :
    pySplitChars sep (l ++ sep :: cs) = l :: pySplitChars sep cs := by
  induction l with
  | nil => simp [pySplitChars]
  | cons c rest ih =>
    have hc : c ≠ sep := h c (by simp)
    simp only [List.cons_append, pySplitChars, if_neg hc]
    rw [show rest.append (sep :: cs) = rest ++ sep :: cs from rfl]
    rw [ih (fun x hx => h x (by simp [hx]))]

/-- Unfolding `pyJoinChars` at a cons with a nonempty tail. -/
lemma pyJoinChars_cons_of_ne (sep : Char) (l : List Char)
    (ls : List (List Char)) (h : ls ≠ []) :
    pyJoinChars sep (l :: ls) = l ++ sep :: pyJoinChars sep ls := by
  cases ls with
  | nil => exact absurd rfl h
  | cons x t => rfl

/-- Splitting is a left inverse of joining for nonempty part lists whose
parts do not contain the separator. -/
lemma pySplitChars_pyJoinChars (sep : Char) (ls : List (List Char))
    (hne : ls ≠ []) (h : ∀ x ∈ ls, ∀ c ∈ x, c ≠ sep) :
    pySplitChars sep (pyJoinChars sep ls) = ls := by
  induction ls with
  | nil => exact absurd rfl hne
  | cons l t ih =>
    cases t with
    | nil =>
      show pySplitChars sep (pyJoinChars sep [l]) = [l]
      exact pySplitChars_no_sep sep l (h l (by simp))
    | cons x u =>
      rw [pyJoinChars_cons_of_ne sep l (x :: u) (by simp)]
      rw [pySplitChars_append_sep sep l (pyJoinChars sep (x :: u)) (h l (by simp))]
      rw [ih (by simp) (fun y hy => h y (by simp [hy]))]

/-- The last character of a joined list ending in the fence part. -/
lemma getLast?_pyJoinChars_fence (sep : Char) (ls : List (List Char)) :
    (pyJoinChars sep (ls ++ [fenceChars])).getLast? = some '`' := by
  induction ls with
  | nil => rfl
  | cons x t ih =>
    rw [show (x :: t) ++ [fenceChars] = x :: (t ++ [fenceChars]) from rfl]
    rw [pyJoinChars_cons_of_ne sep x (t ++ [fenceChars]) (by simp)]
    have hne : pyJoinChars sep (t ++ [fenceChars]) ≠ [] := by
      intro hemp
      rw [hemp] at ih
      exact Option.noConfusion ih
    have hx : (x ++ (sep :: pyJoinChars sep (t ++ [fenceChars]))).getLast?
        = (sep :: pyJoinChars sep (t ++ [fenceChars])).getLast? :=
      List.getLast?_append_of_ne_nil x (by simp)
    rw [hx]
    rw [show sep :: pyJoinChars sep (t ++ [fenceChars])
          = [sep] ++ pyJoinChars sep (t ++ [fenceChars]) from rfl]
    rw [List.getLast?_append_of_ne_nil [sep] hne]
    exact ih

/-- On input consisting solely of disallowed characters, the sanitizing
substitution yields a single '-' (or nothing for empty input). -/
lemma reSubDashAux_all_disallowed (l : List Char)
    (h : ∀ c ∈ l, allowedBranchChar c = false) :
    reSubDashAux false l = (if l = [] then [] else ['-'])
      ∧ reSubDashAux true l = [] := by
  induction l with
  | nil => exact ⟨rfl, rfl⟩
  | cons c rest ih =>
    have hc : allowedBranchChar c = false := h c (by simp)
    obtain ⟨-, ihTrue⟩ := ih (fun x hx => h x (by simp [hx]))
    constructor
    · simp only [reSubDashAux, hc, Bool.false_eq_true, if_false, if_true]
      rw [ihTrue]
      simp
    · simp only [reSubDashAux, hc, Bool.false_eq_true, if_false, if_true]
      exact ihTrue

/-- `List.lookup` after a (shadowing) `listSet` of the same key. -/
lemma lookup_listSet_self (files : List (String × String)) (path content : String) :
    (listSet files path content).lookup path = some content := by
  simp [listSet, List.lookup]

/-- The step loop appends exactly one `(step_number, summary)` entry per
step, in plan order, whatever each step's files do. -/
lemma foldl_processStep_logs_fst (env : ExecEnv) (g bn : String)
    (steps : List PlanStep) (st : ExecState) :
    ((steps.foldl (processStep env g bn) st).logs).map Prod.fst
      = st.logs.map Prod.fst ++ steps.map PlanStep.step_number := by
  induction steps generalizing st with
  | nil => simp
  | cons s t ih =>
    rw [List.foldl_cons, ih]
    simp [processStep]

/-- Specialisation to a whole run: one log entry per plan step, in order. -/
lemma execute_plan_steps_logs_fst (env : ExecEnv) (plan : PlanResult) (bn : String) :
    ((execute_plan_steps env plan bn).logs).map Prod.fst
      = plan.steps.map PlanStep.step_number := by
  simpa using foldl_processStep_logs_fst env plan.goal bn plan.steps ⟨env.defaultFiles, [], []⟩

/-- The `set_repo_context(owner, repo, token=token)` call cannot bind. -/
lemma set_repo_context_token_call_fails :
    pyBindsCall set_repo_context_params 2 ["token"] = false := rfl

/-- Whenever branch setup succeeds, `execute_plan` raises `TypeError` at
the `set_repo_context(owner, repo, token=token)` call (line 363) before
processing any step. -/
lemma execute_plan_raises_typeError (env : ExecEnv) (plan : PlanResult)
    (rfn : String) (bn : Option String) (now : Nat) (ow rp : String)
    (hsplit : pySplit '/' rfn = [ow, rp])
    (hb : env.branchCreateError = none) :
    execute_plan env plan rfn bn now
      = .error (.typeError "set_repo_context() got an unexpected keyword argument 'token'") := by
  unfold execute_plan
  rw [hsplit]
  simp [hb, execute_plan_after_branch, set_repo_context_token_call_fails]

/-! Claim theorems. -/

/-- C10: a plan-JSON file entry that omits `action` validates successfully
with the default `MODIFY` — a mutating action, not the advisory `READ`
(and an explicit `"MODIFY"` value parses to the same action). -/
theorem c10_action_defaults_to_modify :
    (∀ p, parsePlanFile ⟨some p, none⟩ = .ok ⟨p, .MODIFY⟩)
      ∧ FileActionKind.MODIFY ≠ FileActionKind.READ
      ∧ parseActionLiteral "MODIFY" = some .MODIFY := by
  refine ⟨fun p => rfl, by decide, rfl⟩

/-- C2 (counterexample): when the model layer yields no schema-valid plan
(`pydantic` unset), `generate_plan` does not raise a typed
`PlanGenerationError` — it returns the raw CrewAI result object itself,
which is not a Plan. -/
theorem c2_counterexample :
    generate_plan_finalize ⟨none, "I could not produce the JSON you asked for"⟩
        = GenPlanValue.rawOutput ⟨none, "I could not produce the JSON you asked for"⟩
      ∧ (generate_plan_finalize
          ⟨none, "I could not produce the JSON you asked for"⟩).isPlanResult = false :=
  ⟨rfl, rfl⟩

/-- C2 (amended): `generate_plan`'s output handling returns the validated
plan when the agent produced one, and otherwise logs a warning and falls
back to returning the raw result object unchanged; no error is raised and
no `PlanGenerationError` type exists in the codebase. -/
theorem c2_raw_fallback (result : CrewOutput) :
    (result.pydantic = none →
        generate_plan_finalize result = .rawOutput result
          ∧ (generate_plan_finalize result).isPlanResult = false)
      ∧ (∀ p, result.pydantic = some p → generate_plan_finalize result = .plan p) := by
  obtain ⟨pyd, raw⟩ := result
  cases pyd with
  | none => exact ⟨fun _ => ⟨rfl, rfl⟩, fun p h => Option.noConfusion h⟩
  | some q =>
    refine ⟨fun h => Option.noConfusion h, fun p h => ?_⟩
    cases h
    rfl

/-- C2 (witness). -/
theorem c2_witness :
    CrewOutput.pydantic ⟨none, "broken output"⟩ = none
      ∧ generate_plan_finalize ⟨none, "broken output"⟩
          = .rawOutput ⟨none, "broken output"⟩ :=
  ⟨rfl, ((c2_raw_fallback ⟨none, "broken output"⟩).1 rfl).1⟩

/-- C1: the claimed three-part context binding never happens.
`set_repo_context` has only the parameters `(owner, repo)`, so the call
`set_repo_context(owner, repo, token=token)` that `generate_plan` makes
(line 53) does not bind — CPython raises `TypeError` — and `generate_plan`
aborts before either crew runs; no `(owner, repo, token)` context is ever
stored for the tools to read. -/
theorem c1_token_context_binding :
    pyBindsCall set_repo_context_params 2 ["token"] = false
      ∧ (∀ rfn token ow rp, pySplit '/' rfn = [ow, rp] →
          generate_plan_start rfn token
            = .error (.typeError "set_repo_context() got an unexpected keyword argument 'token'")) := by
  refine ⟨rfl, fun rfn token ow rp h => ?_⟩
  unfold generate_plan_start
  rw [h]
  rfl

/-- C1 (witness). -/
theorem c1_witness :
    pySplit '/' "octocat/hello-world" = ["octocat", "hello-world"]
      ∧ generate_plan_start "octocat/hello-world" (some "ghp_secret")
          = .error (.typeError "set_repo_context() got an unexpected keyword argument 'token'") :=
  ⟨by decide,
   c1_token_context_binding.2 "octocat/hello-world" (some "ghp_secret")
     "octocat" "hello-world" (by decide)⟩

/-- C7 (counterexample): the claim's formula forgets the final
`.strip('-')` of the sanitized goal.  For the goal "Fix!" the code derives
`gitpilot-fix-000000` while the claimed formula gives
`gitpilot-fix--000000`. -/
theorem c7_counterexample :
    deriveBranchName "Fix!" 1730000000 ≠ claimedBranchNameC7 "Fix!" 1730000000 := by
  decide

/-- C7 (amended): with `branch_name` unsupplied the branch name is
`'gitpilot-' + (goal lower-cased, runs outside [a-z0-9-] collapsed to '-',
truncated to 40 characters, then stripped of leading/trailing '-') + '-' +
last 6 digits of the timestamp`; it is a pure function of (goal,
timestamp) — hence deterministic — and never empty, degrading to
`gitpilot--<timestamp>` for goals with no usable character at all. -/
theorem c7_branch_name_derivation (goal : String) (now : Nat) :
    deriveBranchName goal now
        = "gitpilot-"
            ++ String.mk (pyStripDash ((reSubDash (goal.toList.map Char.toLower)).take 40))
            ++ "-" ++ lastSixDigits now
      ∧ deriveBranchName goal now ≠ ""
      ∧ ((goal.toList.map Char.toLower).all (fun c => !(allowedBranchChar c)) = true →
          deriveBranchName goal now = "gitpilot--" ++ lastSixDigits now) := by
  refine ⟨rfl, ?_, ?_⟩
  · intro h
    rw [show deriveBranchName goal now
        = "gitpilot-"
            ++ String.mk (pyStripDash ((reSubDash (goal.toList.map Char.toLower)).take 40))
            ++ "-" ++ lastSixDigits now from rfl] at h
    have hlen := congrArg String.length h
    rw [String.length_append, String.length_append, String.length_append] at hlen
    have h9 : ("gitpilot-" : String).length = 9 := rfl
    have hd : ("-" : String).length = 1 := rfl
    have h0 : ("" : String).length = 0 := rfl
    rw [h9, hd, h0] at hlen
    omega
  · intro h
    have hsan : pyStripDash ((reSubDash (goal.toList.map Char.toLower)).take 40) = [] := by
      obtain ⟨hfalse, -⟩ := reSubDashAux_all_disallowed (goal.toList.map Char.toLower)
        (by
          intro c hc
          have := List.all_eq_true.mp h c hc
          simpa using this)
      unfold reSubDash
      rw [hfalse]
      by_cases hnil : goal.toList.map Char.toLower = []
      · rw [if_pos hnil]
        decide
      · rw [if_neg hnil]
        decide
    have h1 : deriveBranchName goal now
        = "gitpilot-"
            ++ String.mk (pyStripDash ((reSubDash (goal.toList.map Char.toLower)).take 40))
            ++ "-" ++ lastSixDigits now := rfl
    rw [h1, hsan]
    rfl

/-- C7 (witness): a purely-punctuation goal. -/
theorem c7_witness :
    (((":::!").toList.map Char.toLower).all (fun c => !(allowedBranchChar c)) = true)
      ∧ deriveBranchName ":::!" 1730000000 = "gitpilot--" ++ lastSixDigits 1730000000
      ∧ deriveBranchName ":::!" 1730000000 ≠ "" :=
  ⟨by decide,
   (c7_branch_name_derivation ":::!" 1730000000).2.2 (by decide),
   (c7_branch_name_derivation ":::!" 1730000000).2.1⟩

/-- C3: the intended reuse-existing-branch path is unreachable.  When
`create_branch` raises, the handler `except HTTPException as e:` at
`agentic.py` line 352 evaluates the name `HTTPException`, which is bound
nowhere in `execute_plan`'s scope chain (the module never imports it), so
CPython raises `NameError` and `execute_plan` aborts instead of logging a
warning and proceeding on the existing branch — re-running execution for
the same goal does hard-fail. -/
theorem c3_branch_exists_raises_nameError :
    execute_plan_resolves "HTTPException" = false
      ∧ (∀ (env : ExecEnv) (plan : PlanResult) (rfn : String) (bn : Option String)
          (now : Nat) (ow rp e : String),
          pySplit '/' rfn = [ow, rp] →
          env.branchCreateError = some e →
          execute_plan env plan rfn bn now
            = .error (.nameError "name 'HTTPException' is not defined")) := by
  refine ⟨rfl, fun env plan rfn bn now ow rp e hsplit hb => ?_⟩
  unfold execute_plan
  rw [hsplit, hb]
  rfl

/-- C3 (witness): a re-run whose branch already exists. -/
theorem c3_witness :
    pySplit '/' "octocat/hello" = ["octocat", "hello"]
      ∧ branchExistsEnv.branchCreateError = some "422: Reference already exists"
      ∧ execute_plan branchExistsEnv emptyPlan "octocat/hello"
          (some "gitpilot-add-docs-000001") 0
          = .error (.nameError "name 'HTTPException' is not defined") :=
  ⟨by decide, rfl,
   c3_branch_exists_raises_nameError.2 branchExistsEnv emptyPlan "octocat/hello"
     (some "gitpilot-add-docs-000001") 0 "octocat" "hello"
     "422: Reference already exists" (by decide) rfl⟩

/-- C4: per-file failure isolation.  First conjunct: as written,
`execute_plan` raises `TypeError` at the `set_repo_context(owner, repo,
token=token)` call (line 363) before processing any file, so the claimed
behavior is unreachable in a real run.  Second and third conjuncts verify
that the per-step loop itself (lines 386-564) implements the claim: every
plan produces exactly one log entry per step in order whatever the file
operations do, and in a two-CREATE step whose first write raises and
second succeeds the step summary carries exactly one ✗ line followed by
one ✓ line while the subsequent step still executes. -/
theorem c4_per_file_failure_isolation :
    (∀ (env : ExecEnv) (plan : PlanResult) (rfn : String) (bn : Option String)
        (now : Nat) (ow rp : String),
        pySplit '/' rfn = [ow, rp] → env.branchCreateError = none →
        execute_plan env plan rfn bn now
          = .error (.typeError "set_repo_context() got an unexpected keyword argument 'token'"))
      ∧ (∀ (env : ExecEnv) (plan : PlanResult) (bn : String),
          ((execute_plan_steps env plan bn).logs).map Prod.fst
            = plan.steps.map PlanStep.step_number)
      ∧ (∀ (env : ExecEnv) (g smry t1 d1 p1 p2 e c1 c2 bn : String) (n1 : Int)
          (step2 : PlanStep),
          env.gen (createTaskDescription g d1 p1) = .ok c1 →
          env.gen (createTaskDescription g d1 p2) = .ok c2 →
          env.putFileError p1 = some e →
          env.putFileError p2 = none →
          ((execute_plan_steps env
              ⟨g, smry, [⟨n1, t1, d1, [⟨p1, .CREATE⟩, ⟨p2, .CREATE⟩], none⟩, step2]⟩
              bn).logs).head?
              = some (n1, "Step " ++ toString n1 ++ ": " ++ t1
                  ++ "\n  ✗ Error processing " ++ p1 ++ ": " ++ e
                  ++ "\n  ✓ Created " ++ p2)
            ∧ ((execute_plan_steps env
                ⟨g, smry, [⟨n1, t1, d1, [⟨p1, .CREATE⟩, ⟨p2, .CREATE⟩], none⟩, step2]⟩
                bn).logs).map Prod.fst = [n1, step2.step_number]) := by
  refine ⟨fun env plan rfn bn now ow rp hs hb =>
      execute_plan_raises_typeError env plan rfn bn now ow rp hs hb,
    fun env plan bn => execute_plan_steps_logs_fst env plan bn,
    fun env g smry t1 d1 p1 p2 e c1 c2 bn n1 step2 hg1 hg2 hp1 hp2 => ?_⟩
  have hstep1 : processStep env g bn ⟨env.defaultFiles, [], []⟩
      ⟨n1, t1, d1, [⟨p1, .CREATE⟩, ⟨p2, .CREATE⟩], none⟩
      = ⟨listSet env.defaultFiles p2 (stripFences c2),
         [createTaskDescription g d1 p1, createTaskDescription g d1 p2],
         [(n1, "Step " ++ toString n1 ++ ": " ++ t1
             ++ "\n  ✗ Error processing " ++ p1 ++ ": " ++ e
             ++ "\n  ✓ Created " ++ p2)]⟩ := by
    simp [processStep, processFile, hg1, hg2, hp1, hp2, gh_put_file]
  constructor
  · show ((List.foldl (processStep env g bn) ⟨env.defaultFiles, [], []⟩
        [⟨n1, t1, d1, [⟨p1, .CREATE⟩, ⟨p2, .CREATE⟩], none⟩, step2]).logs).head? = _
    rw [List.foldl_cons, hstep1, List.foldl_cons, List.foldl_nil]
    simp [processStep]
  · simpa using execute_plan_steps_logs_fst env
      ⟨g, smry, [⟨n1, t1, d1, [⟨p1, .CREATE⟩, ⟨p2, .CREATE⟩], none⟩, step2]⟩ bn

/-- C4 (witness): a two-file step, `a.py` conflicting and `b.py`
succeeding, followed by a READ step. -/
theorem c4_witness :
    conflictEnv.gen (createTaskDescription "add docs" "write a and b" "a.py")
        = .ok "generated content"
      ∧ conflictEnv.putFileError "a.py" = some "409: sha conflict"
      ∧ conflictEnv.putFileError "b.py" = none
      ∧ ((execute_plan_steps conflictEnv
            ⟨"add docs", "demo",
             [⟨1, "write files", "write a and b",
               [⟨"a.py", .CREATE⟩, ⟨"b.py", .CREATE⟩], none⟩,
              ⟨2, "inspect", "look around", [⟨"README.md", .READ⟩], none⟩]⟩
            "gitpilot-demo").logs).head?
          = some ((1 : Int), "Step " ++ toString (1 : Int) ++ ": " ++ "write files"
              ++ "\n  ✗ Error processing " ++ "a.py" ++ ": " ++ "409: sha conflict"
              ++ "\n  ✓ Created " ++ "b.py")
      ∧ ((execute_plan_steps conflictEnv
            ⟨"add docs", "demo",
             [⟨1, "write files", "write a and b",
               [⟨"a.py", .CREATE⟩, ⟨"b.py", .CREATE⟩], none⟩,
              ⟨2, "inspect", "look around", [⟨"README.md", .READ⟩], none⟩]⟩
            "gitpilot-demo").logs).map Prod.fst = [1, 2] :=
  ⟨rfl, rfl, rfl,
   (c4_per_file_failure_isolation.2.2 conflictEnv "add docs" "demo" "write files"
      "write a and b" "a.py" "b.py" "409: sha conflict" "generated content"
      "generated content" "gitpilot-demo" 1
      ⟨2, "inspect", "look around", [⟨"README.md", .READ⟩], none⟩
      rfl rfl rfl rfl).1,
   (c4_per_file_failure_isolation.2.2 conflictEnv "add docs" "demo" "write files"
      "write a and b" "a.py" "b.py" "409: sha conflict" "generated content"
      "generated content" "gitpilot-demo" 1
      ⟨2, "inspect", "look around", [⟨"README.md", .READ⟩], none⟩
      rfl rfl rfl rfl).2⟩

/-- C5: MODIFY reads the feature-branch tip.  First conjunct: the crash at
line 363 precedes the loop (same slip as C4), so no MODIFY is ever
reached in a real run.  The remaining conjuncts verify the loop itself:
for a CREATE of `p` in step 1 followed by a MODIFY of `p` in step 2, the
MODIFY's `get_file(..., ref=branch_name)` observes the content the CREATE
committed (not `env.defaultFiles`, the pre-execution HEAD snapshot —
which is unconstrained here), the content-generation prompt embeds that
fetched content between the fixed prompt parts, and the final branch
state carries the modified content. -/
theorem c5_modify_reads_branch_tip :
    (∀ (env : ExecEnv) (plan : PlanResult) (rfn : String) (bn : Option String)
        (now : Nat) (ow rp : String),
        pySplit '/' rfn = [ow, rp] → env.branchCreateError = none →
        execute_plan env plan rfn bn now
          = .error (.typeError "set_repo_context() got an unexpected keyword argument 'token'"))
      ∧ (∀ (env : ExecEnv) (g smry t1 t2 d1 d2 p c m bn : String) (n1 n2 : Int),
          env.getFileError p = none →
          env.putFileError p = none →
          env.gen (createTaskDescription g d1 p) = .ok c →
          env.gen (modifyTaskDescription g d2 p (stripFences c)) = .ok m →
          (execute_plan_steps env
              ⟨g, smry, [⟨n1, t1, d1, [⟨p, .CREATE⟩], none⟩,
                         ⟨n2, t2, d2, [⟨p, .MODIFY⟩], none⟩]⟩ bn).trace
              = [createTaskDescription g d1 p,
                 modifyTaskDescription g d2 p (stripFences c)]
            ∧ ((execute_plan_steps env
                ⟨g, smry, [⟨n1, t1, d1, [⟨p, .CREATE⟩], none⟩,
                           ⟨n2, t2, d2, [⟨p, .MODIFY⟩], none⟩]⟩ bn).files).lookup p
              = some (stripFences m)
            ∧ modifyTaskDescription g d2 p (stripFences c)
              = modifyTaskPre g d2 p ++ stripFences c ++ modifyTaskPost) := by
  refine ⟨fun env plan rfn bn now ow rp hs hb =>
      execute_plan_raises_typeError env plan rfn bn now ow rp hs hb,
    fun env g smry t1 t2 d1 d2 p c m bn n1 n2 hget hput hg1 hg2 => ?_⟩
  have hstep1 : processStep env g bn ⟨env.defaultFiles, [], []⟩
      ⟨n1, t1, d1, [⟨p, .CREATE⟩], none⟩
      = ⟨listSet env.defaultFiles p (stripFences c),
         [createTaskDescription g d1 p],
         [(n1, "Step " ++ toString n1 ++ ": " ++ t1 ++ "\n  ✓ Created " ++ p)]⟩ := by
    simp [processStep, processFile, hg1, hput, gh_put_file]
  have hstep2 : processStep env g bn
      ⟨listSet env.defaultFiles p (stripFences c),
       [createTaskDescription g d1 p],
       [(n1, "Step " ++ toString n1 ++ ": " ++ t1 ++ "\n  ✓ Created " ++ p)]⟩
      ⟨n2, t2, d2, [⟨p, .MODIFY⟩], none⟩
      = ⟨listSet (listSet env.defaultFiles p (stripFences c)) p (stripFences m),
         [createTaskDescription g d1 p,
          modifyTaskDescription g d2 p (stripFences c)],
         [(n1, "Step " ++ toString n1 ++ ": " ++ t1 ++ "\n  ✓ Created " ++ p),
          (n2, "Step " ++ toString n2 ++ ": " ++ t2 ++ "\n  ✓ Modified " ++ p)]⟩ := by
    simp [processStep, processFile, gh_get_file, hget, lookup_listSet_self,
      hg2, hput, gh_put_file]
  refine ⟨?_, ?_, rfl⟩
  · show (List.foldl (processStep env g bn) ⟨env.defaultFiles, [], []⟩
        [⟨n1, t1, d1, [⟨p, .CREATE⟩], none⟩, ⟨n2, t2, d2, [⟨p, .MODIFY⟩], none⟩]).trace = _
    rw [List.foldl_cons, hstep1, List.foldl_cons, hstep2, List.foldl_nil]
  · show ((List.foldl (processStep env g bn) ⟨env.defaultFiles, [], []⟩
        [⟨n1, t1, d1, [⟨p, .CREATE⟩], none⟩, ⟨n2, t2, d2, [⟨p, .MODIFY⟩], none⟩]).files).lookup p = _
    rw [List.foldl_cons, hstep1, List.foldl_cons, hstep2, List.foldl_nil]
    exact lookup_listSet_self _ p (stripFences m)

/-- C5 (witness): CREATE `demo.py` then MODIFY it; the default branch has
different content under that path, and the MODIFY prompt embeds the
CREATE's committed content rather than the snapshot content. -/
theorem c5_witness :
    demoEnvOk.getFileError "demo.py" = none
      ∧ demoEnvOk.gen (createTaskDescription "add a demo" "create it" "demo.py")
          = .ok "generated content"
      ∧ demoEnvOk.gen (modifyTaskDescription "add a demo" "polish it" "demo.py"
          (stripFences "generated content")) = .ok "generated content"
      ∧ (execute_plan_steps demoEnvOk
            ⟨"add a demo", "demo",
             [⟨1, "create", "create it", [⟨"demo.py", .CREATE⟩], none⟩,
              ⟨2, "modify", "polish it", [⟨"demo.py", .MODIFY⟩], none⟩]⟩
            "gitpilot-demo").trace
          = [createTaskDescription "add a demo" "create it" "demo.py",
             modifyTaskDescription "add a demo" "polish it" "demo.py"
               (stripFences "generated content")] :=
  ⟨rfl, rfl, rfl,
   (c5_modify_reads_branch_tip.2 demoEnvOk "add a demo" "demo" "create" "modify"
      "create it" "polish it" "demo.py" "generated content" "generated content"
      "gitpilot-demo" 1 2 rfl rfl rfl rfl).1⟩

/-- The fence-stripping clean-up on content of the shape
`三-backtick line, body lines, three-backtick line` removes exactly the
two fence lines. -/
lemma stripFences_fenced (ls : List (List Char))
    (h : ∀ x ∈ ls, ∀ ch ∈ x, ch ≠ '\n') :
    stripFences (String.mk (pyJoinChars '\n' (fenceChars :: (ls ++ [fenceChars]))))
      = String.mk (pyJoinChars '\n' ls) := by
  have hne : ls ++ [fenceChars] ≠ [] := by simp
  have hcons : pyJoinChars '\n' (fenceChars :: (ls ++ [fenceChars]))
      = fenceChars ++ '\n' :: pyJoinChars '\n' (ls ++ [fenceChars]) :=
    pyJoinChars_cons_of_ne '\n' fenceChars (ls ++ [fenceChars]) hne
  have hhead : (pyJoinChars '\n' (fenceChars :: (ls ++ [fenceChars]))).head? = some '`' := by
    rw [hcons]; rfl
  have hlast : (pyJoinChars '\n' (fenceChars :: (ls ++ [fenceChars]))).getLast? = some '`' := by
    rw [show fenceChars :: (ls ++ [fenceChars]) = (fenceChars :: ls) ++ [fenceChars] from rfl]
    exact getLast?_pyJoinChars_fence '\n' (fenceChars :: ls)
  have hstrip : pyStripChars (pyJoinChars '\n' (fenceChars :: (ls ++ [fenceChars])))
      = pyJoinChars '\n' (fenceChars :: (ls ++ [fenceChars])) := by
    refine pyStripChars_eq_self _ (fun c hc => ?_) (fun c hc => ?_)
    · rw [hhead] at hc; cases hc; decide
    · rw [hlast] at hc; cases hc; decide
  have htake : (pyJoinChars '\n' (fenceChars :: (ls ++ [fenceChars]))).take 3 = fenceChars := by
    rw [hcons]; rfl
  have hsplit : pySplitChars '\n' (pyJoinChars '\n' (fenceChars :: (ls ++ [fenceChars])))
      = fenceChars :: (ls ++ [fenceChars]) := by
    refine pySplitChars_pyJoinChars '\n' _ (by simp) ?_
    intro x hx
    rcases List.mem_cons.mp hx with hx | hx
    · subst hx; decide
    · rcases List.mem_append.mp hx with hx | hx
      · exact h x hx
      · simp only [List.mem_singleton] at hx; subst hx; decide
  have hlastD : (fenceChars :: (ls ++ [fenceChars])).getLastD [] = fenceChars := by
    rw [List.getLastD_eq_getLast?]
    rw [show fenceChars :: (ls ++ [fenceChars]) = (fenceChars :: ls) ++ [fenceChars] from rfl]
    rw [List.getLast?_concat]
    rfl
  show stripFences (String.mk (pyJoinChars '\n' (fenceChars :: (ls ++ [fenceChars])))) = _
  unfold stripFences
  rw [show (String.mk (pyJoinChars '\n' (fenceChars :: (ls ++ [fenceChars])))).toList
      = pyJoinChars '\n' (fenceChars :: (ls ++ [fenceChars])) from rfl]
  rw [hstrip]
  rw [if_pos htake, hsplit]
  show (if pyStripChars ((fenceChars :: (ls ++ [fenceChars])).getLastD []) = fenceChars then
      String.mk (pyJoinChars '\n' ((fenceChars :: (ls ++ [fenceChars])).tail.dropLast))
    else String.mk (pyJoinChars '\n' ((fenceChars :: (ls ++ [fenceChars])).tail)))
    = String.mk (pyJoinChars '\n' ls)
  rw [hlastD]
  rw [if_pos (by decide : pyStripChars fenceChars = fenceChars)]
  rw [show (fenceChars :: (ls ++ [fenceChars])).tail = ls ++ [fenceChars] from rfl]
  rw [List.dropLast_concat]

/-- C6: fence stripping before commit.  First conjunct: the crash at line
363 precedes the loop (same slip as C4), so in a real run nothing is ever
committed.  The remaining conjuncts verify the loop and the clean-up
itself: a single-CREATE plan commits exactly `stripFences` of the
generated output; content whose stripped form does not open with a
three-backtick line is committed unchanged apart from the surrounding
whitespace strip; fenced content loses its leading fence line and its
trailing fence line. -/
theorem c6_fence_stripping :
    (∀ (env : ExecEnv) (plan : PlanResult) (rfn : String) (bn : Option String)
        (now : Nat) (ow rp : String),
        pySplit '/' rfn = [ow, rp] → env.branchCreateError = none →
        execute_plan env plan rfn bn now
          = .error (.typeError "set_repo_context() got an unexpected keyword argument 'token'"))
      ∧ (∀ (env : ExecEnv) (g smry t1 d1 p c bn : String) (n1 : Int),
          env.gen (createTaskDescription g d1 p) = .ok c →
          env.putFileError p = none →
          ((execute_plan_steps env ⟨g, smry, [⟨n1, t1, d1, [⟨p, .CREATE⟩], none⟩]⟩
              bn).files).lookup p = some (stripFences c))
      ∧ (∀ s, (pyStripChars s.toList).take 3 ≠ fenceChars → stripFences s = pyStrip s)
      ∧ (∀ ls : List (List Char), (∀ x ∈ ls, ∀ ch ∈ x, ch ≠ '\n') →
          stripFences (String.mk (pyJoinChars '\n' (fenceChars :: (ls ++ [fenceChars]))))
            = String.mk (pyJoinChars '\n' ls))
      ∧ stripFences "```python\nprint(1)\n```" = "print(1)"
      ∧ stripFences "```\nhello" = "hello"
      ∧ stripFences "  plain text \n" = "plain text" := by
  refine ⟨fun env plan rfn bn now ow rp hs hb =>
      execute_plan_raises_typeError env plan rfn bn now ow rp hs hb,
    ?_, ?_, stripFences_fenced, by decide, by decide, by decide⟩
  · intro env g smry t1 d1 p c bn n1 hg hput
    have hstep1 : processStep env g bn ⟨env.defaultFiles, [], []⟩
        ⟨n1, t1, d1, [⟨p, .CREATE⟩], none⟩
        = ⟨listSet env.defaultFiles p (stripFences c),
           [createTaskDescription g d1 p],
           [(n1, "Step " ++ toString n1 ++ ": " ++ t1 ++ "\n  ✓ Created " ++ p)]⟩ := by
      simp [processStep, processFile, hg, hput, gh_put_file]
    show ((List.foldl (processStep env g bn) ⟨env.defaultFiles, [], []⟩
        [⟨n1, t1, d1, [⟨p, .CREATE⟩], none⟩]).files).lookup p = _
    rw [List.foldl_cons, hstep1, List.foldl_nil]
    exact lookup_listSet_self _ p (stripFences c)
  · intro s hs
    unfold stripFences pyStrip
    rw [if_neg hs]

/-- C6 (witness): a fenced CREATE output is committed with the fences
stripped. -/
theorem c6_witness :
    demoEnvOk.gen (createTaskDescription "add a demo" "create it" "demo.py")
        = .ok "generated content"
      ∧ demoEnvOk.putFileError "demo.py" = none
      ∧ ((execute_plan_steps demoEnvOk
            ⟨"add a demo", "demo", [⟨1, "create", "create it", [⟨"demo.py", .CREATE⟩], none⟩]⟩
            "gitpilot-demo").files).lookup "demo.py"
          = some (stripFences "generated content")
      ∧ (∀ x ∈ [['h', 'i']], ∀ ch ∈ x, ch ≠ '\n')
      ∧ stripFences (String.mk (pyJoinChars '\n' (fenceChars :: ([['h', 'i']] ++ [fenceChars]))))
          = String.mk (pyJoinChars '\n' [['h', 'i']])
      ∧ (pyStripChars ("no fences here".toList)).take 3 ≠ fenceChars
      ∧ stripFences "no fences here" = pyStrip "no fences here" :=
  ⟨rfl, rfl,
   c6_fence_stripping.2.1 demoEnvOk "add a demo" "demo" "create" "create it"
     "demo.py" "generated content" "gitpilot-demo" 1 rfl rfl,
   by decide,
   c6_fence_stripping.2.2.2.1 [['h', 'i']] (by decide),
   by decide,
   c6_fence_stripping.2.2.1 "no fences here" (by decide)⟩

/-- C8 (counterexample): a run whose branch setup succeeds does not return
the claimed ExecutionLog at all — it raises `TypeError` at the
`set_repo_context(owner, repo, token=token)` call — and the dict the
final return statement builds keeps the per-step entries under an
`executionLog` key (itself `steps` one level down), not under a top-level
`steps` key as the claim states. -/
theorem c8_counterexample :
    execute_plan demoEnvOk emptyPlan "octocat/hello" none 1730000000
        = .error (.typeError "set_repo_context() got an unexpected keyword argument 'token'")
      ∧ execute_plan_result_keys ≠ claimedExecutionLogKeysC8
      ∧ ¬ ("steps" ∈ execute_plan_result_keys)
      ∧ "steps" ∈ executionLog_inner_keys :=
  ⟨execute_plan_raises_typeError demoEnvOk emptyPlan "octocat/hello" none
     1730000000 "octocat" "hello" (by decide) rfl,
   by decide, by decide, by decide⟩

/-- C8 (amended): the result dict that `execute_plan`'s return statement
constructs — reachable only once the line-363 `TypeError` slip is fixed —
is `(status, message, branch, branch_url, executionLog := steps)` with
`status = "completed"` and the branch fields populated for every plan and
every environment, including environments in which per-file operations
fail (failures are visible only as ✗ lines inside the summaries), and
`executionLog` carries exactly one `(step_number, summary)` entry per
plan step in plan order. -/
theorem c8_result_shape (env : ExecEnv) (plan : PlanResult) (rfn bn : String) :
    (mkExecuteResult plan rfn bn (execute_plan_steps env plan bn).logs).status = "completed"
      ∧ (mkExecuteResult plan rfn bn (execute_plan_steps env plan bn).logs).branch = bn
      ∧ (mkExecuteResult plan rfn bn (execute_plan_steps env plan bn).logs).branch_url
          = "https://github.com/" ++ rfn ++ "/tree/" ++ bn
      ∧ ((mkExecuteResult plan rfn bn (execute_plan_steps env plan bn).logs).executionLog).map
            Prod.fst
          = plan.steps.map PlanStep.step_number :=
  ⟨rfl, rfl, rfl, execute_plan_steps_logs_fst env plan bn⟩

/-- C9: every exploration tool catches every failure of its body —
unset repository context, failing tree fetch, missing file — and returns
it as a plain error string to the calling LLM instead of raising; in
particular `read_file` on a missing path returns
`Error reading file <path>: <reason>`. -/
theorem c9_tools_never_raise :
    (∀ env : ToolsEnv, list_repository_files env unsetCtx
        = "Error listing repository files: "
            ++ "Repository context not set. Call set_repo_context first.")
      ∧ (∀ env : ToolsEnv, get_directory_structure env unsetCtx
          = "Error getting directory structure: "
              ++ "Repository context not set. Call set_repo_context first.")
      ∧ (∀ (env : ToolsEnv) (p : String), read_file env unsetCtx p
          = "Error reading file " ++ p ++ ": "
              ++ "Repository context not set. Call set_repo_context first.")
      ∧ (∀ (env : ToolsEnv) (pat : String), search_files env unsetCtx pat
          = "Error searching for files: "
              ++ "Repository context not set. Call set_repo_context first.")
      ∧ (∀ (env : ToolsEnv) (d : String), list_directory_files env unsetCtx d
          = "Error listing directory: "
              ++ "Repository context not set. Call set_repo_context first.")
      ∧ (∀ env : ToolsEnv, get_repository_summary env unsetCtx
          = "Error generating repository summary: "
              ++ "Repository context not set. Call set_repo_context first.")
      ∧ (∀ (env : ToolsEnv) (ctx : ToolCtx) (msg : String),
          (ctx.owner == "") = false → (ctx.repo == "") = false →
          env.tree = .error msg →
          list_repository_files env ctx = "Error listing repository files: " ++ msg
            ∧ get_directory_structure env ctx = "Error getting directory structure: " ++ msg
            ∧ (∀ pat, search_files env ctx pat = "Error searching for files: " ++ msg)
            ∧ (∀ d, list_directory_files env ctx d = "Error listing directory: " ++ msg)
            ∧ get_repository_summary env ctx = "Error generating repository summary: " ++ msg)
      ∧ (∀ (env : ToolsEnv) (ctx : ToolCtx) (path msg : String),
          (ctx.owner == "") = false → (ctx.repo == "") = false →
          env.fileContent path = .error msg →
          read_file env ctx path = "Error reading file " ++ path ++ ": " ++ msg) := by
  refine ⟨fun env => rfl, fun env => rfl, fun env p => rfl, fun env pat => rfl,
    fun env d => rfl, fun env => rfl, ?_, ?_⟩
  · intro env ctx msg h1 h2 ht
    refine ⟨?_, ?_, fun pat => ?_, fun d => ?_, ?_⟩ <;>
      simp only [list_repository_files, get_directory_structure, search_files,
        list_directory_files, get_repository_summary, get_repo_context,
        h1, h2, ht, Bool.or_self, Bool.false_eq_true, if_false] <;> rfl
  · intro env ctx path msg h1 h2 hf
    simp only [read_file, get_repo_context, h1, h2, hf, Bool.or_self,
      Bool.false_eq_true, if_false]
    rfl

/-- C9 (witness): an unreachable repository and a missing path. -/
theorem c9_witness :
    failingToolsEnv.tree = .error "boom: repository unreachable"
      ∧ (okCtx.owner == "") = false
      ∧ list_repository_files failingToolsEnv okCtx
          = "Error listing repository files: " ++ "boom: repository unreachable"
      ∧ read_file failingToolsEnv okCtx "missing.txt"
          = "Error reading file " ++ "missing.txt" ++ ": " ++ "404: Not Found"
      ∧ read_file failingToolsEnv unsetCtx "missing.txt"
          = "Error reading file " ++ "missing.txt" ++ ": "
              ++ "Repository context not set. Call set_repo_context first." :=
  ⟨rfl, rfl,
   (c9_tools_never_raise.2.2.2.2.2.2.1 failingToolsEnv okCtx
      "boom: repository unreachable" rfl rfl rfl).1,
   c9_tools_never_raise.2.2.2.2.2.2.2 failingToolsEnv okCtx "missing.txt"
     "404: Not Found" rfl rfl rfl,
   c9_tools_never_raise.2.2.1 failingToolsEnv "missing.txt"⟩

end GitPilot
